import Mathlib

/-!
Verification of the UsbXbox360Dxe controller input pipeline.

This file gives a shallow embedding, in Lean 4, of the input-processing core
of the UsbXbox360Dxe UEFI driver: the bounded key queue (KeyBoard.c), the
keyboard state machine of USBParseKey (KeyBoard.c), the button/trigger/stick
decoders (Xbox360Input.c) and the ASUS ROG Ally report normalizer
(AsusAllyDevice.c).  Machine integers are modelled as Nat (for the unsigned
C types, with explicit truncation where the C code truncates) and Int (for
the signed INT16/INT32 arithmetic, whose intermediate values stay well below
2^31 on every path, so no wrap-around modelling is needed).
-/

namespace Xbox360

/-- One queued key transition: the USB_KEY record of KeyBoard.h
(KeyCode : UINT8, Down : BOOLEAN). -/
structure USB_KEY where
  keyCode : Nat
  down    : Bool
deriving DecidableEq, Repr

/-- The USB_SIMPLE_QUEUE ring buffer of KeyBoard.c.  The C struct stores a
buffer of MAX_KEY_ALLOWED + 1 item slots plus Head and Tail indices; the
capacity constant itself lives in KeyBoard.h (not among the sources at
hand), so the development is parameterised by it (parameter N below).
The buffer is modelled as a total function on Nat; the code only ever
touches indices below N + 1. -/
structure USB_SIMPLE_QUEUE (N : Nat) where
  buffer : Nat → USB_KEY
  head   : Nat
  tail   : Nat

/-- IsQueueEmpty from KeyBoard.c: Head == Tail. -/
def IsQueueEmpty {N : Nat} (q : USB_SIMPLE_QUEUE N) : Bool :=
  q.head == q.tail

/-- IsQueueFull from KeyBoard.c: (Tail + 1) % (MAX_KEY_ALLOWED + 1) == Head. -/
def IsQueueFull {N : Nat} (q : USB_SIMPLE_QUEUE N) : Bool :=
  (q.tail + 1) % (N + 1) == q.head

/-- Enqueue from KeyBoard.c: if the queue is full, advance Head (throwing the
oldest unread key out of the buffer), then write the item at Tail and advance
Tail.  (Advancing Head does not move Tail, so the write goes to the original
Tail slot in either case.) -/
def Enqueue {N : Nat} (q : USB_SIMPLE_QUEUE N) (item : USB_KEY) : USB_SIMPLE_QUEUE N :=
  { buffer := fun j => if j = q.tail then item else q.buffer j
    head := if IsQueueFull q then (q.head + 1) % (N + 1) else q.head
    tail := (q.tail + 1) % (N + 1) }

/-- Dequeue from KeyBoard.c: on an empty queue report failure; otherwise read
the item at Head, zero the slot, and advance Head. -/
def Dequeue {N : Nat} (q : USB_SIMPLE_QUEUE N) : Option (USB_KEY × USB_SIMPLE_QUEUE N) :=
  if IsQueueEmpty q then none
  else some (q.buffer q.head,
    { q with buffer := fun j => if j = q.head then ⟨0, false⟩ else q.buffer j,
             head := (q.head + 1) % (N + 1) })

/-- Number of unread items held by the ring buffer (distance from Head to
Tail around the ring of N + 1 slots). -/
def qLen {N : Nat} (q : USB_SIMPLE_QUEUE N) : Nat :=
  (q.tail + (N + 1) - q.head) % (N + 1)

/-- The unread items in FIFO order: the buffer slots from Head (the oldest
item) up to Tail (exclusive), walking around the ring. -/
def qItems {N : Nat} (q : USB_SIMPLE_QUEUE N) : List USB_KEY :=
  (List.range (qLen q)).map (fun i => q.buffer ((q.head + i) % (N + 1)))

/-- A client-visible queue operation: the producers call Enqueue, the
consumer calls Dequeue. -/
inductive QueueOp where
  | enq (item : USB_KEY)
  | deq
deriving DecidableEq

/-- Run a sequence of queue operations (a failed Dequeue leaves the queue
unchanged, as in the C code, which merely returns EFI_DEVICE_ERROR). -/
def runOps {N : Nat} (ops : List QueueOp) (q : USB_SIMPLE_QUEUE N) : USB_SIMPLE_QUEUE N :=
  ops.foldl (fun q op =>
    match op with
    | .enq item => Enqueue q item
    | .deq =>
      match Dequeue q with
      | none => q
      | some (_, q2) => q2) q

/- Modular arithmetic helpers for the ring-buffer proofs. -/

/-! ## Analog stick processing (Xbox360Input.c)

The STICK_CONFIG record of Xbox360Config.h.  Mode values follow the
STICK_MODE enum (0 = disabled, 1 = keys, 2 = mouse, 3 = scroll);
Deadzone/Saturation are UINT16, the rest UINT8. -/

structure STICK_CONFIG where
  mode              : Nat
  deadzone          : Nat
  saturation        : Nat
  mouseSensitivity  : Nat
  mouseMaxSpeed     : Nat
  mouseCurve        : Nat
  directionMode     : Nat
  upMapping         : Nat
  downMapping       : Nat
  leftMapping       : Nat
  rightMapping      : Nat
  scrollSensitivity : Nat
  scrollDeadzone    : Nat
deriving DecidableEq, Repr

/-- ApplyResponseCurve from Xbox360Input.c.  Fixed-point input 0..10000;
curve 1 = linear, 2 = square, 3 = smoothstep, any other value = linear.
All INT32 intermediates stay below 10^8, so plain Int is a faithful model. -/
def ApplyResponseCurve (normalized : Int) (curve : Nat) : Int :=
  if normalized ≤ 0 then 0
  else if 10000 ≤ normalized then 10000
  else
    let result : Int :=
      if curve = 1 then normalized
      else if curve = 2 then (normalized * normalized) / 10000
      else if curve = 3 then
        let t2 := (normalized * normalized) / 10000
        let t3 := (t2 * normalized) / 10000
        3 * t2 - 2 * t3
      else normalized
    let result := if result < 0 then 0 else result
    if result > 10000 then 10000 else result

/-- CalculateMouseMovement from Xbox360Input.c: deadzone / saturation clamp,
fixed-point normalization, response curve, speed scaling with a 1-pixel
minimum step, then dominant-axis split of the speed (Y inverted).  Returns
(DeltaX, DeltaY). -/
def CalculateMouseMovement (x y : Int) (cfg : STICK_CONFIG) : Int × Int :=
  let absX := if x < 0 then -x else x
  let absY := if y < 0 then -y else y
  let magnitude := if absX > absY then absX else absY
  if magnitude < (cfg.deadzone : Int) then (0, 0)
  else
    let magnitude := if magnitude > (cfg.saturation : Int) then (cfg.saturation : Int) else magnitude
    if (cfg.saturation : Int) ≤ (cfg.deadzone : Int) then (0, 0)
    else
      let normalized := ((magnitude - (cfg.deadzone : Int)) * 10000) /
                        ((cfg.saturation : Int) - (cfg.deadzone : Int))
      let normalized := if normalized < 0 then 0 else normalized
      let normalized := if normalized > 10000 then 10000 else normalized
      let curved := ApplyResponseCurve normalized cfg.mouseCurve
      let speed := (curved * (cfg.mouseSensitivity : Int) * (cfg.mouseMaxSpeed : Int)) /
                   (10000 * 100)
      let speed := if speed < 1 ∧ curved > 0 then 1 else speed
      if absX > absY then
        let deltaX := if x > 0 then speed else -speed
        let deltaY := if y ≠ 0 then (speed * absY) / absX else 0
        let deltaY := if y > 0 then -deltaY else deltaY
        (deltaX, deltaY)
      else
        let deltaY := if y > 0 then -speed else speed
        let deltaX := if x ≠ 0 then (speed * absX) / absY else 0
        let deltaX := if x < 0 then -deltaX else deltaX
        (deltaX, deltaY)

/-- CalculateScrollDelta from Xbox360Input.c: Y axis only, normalized to
0..100, scaled by the scroll sensitivity, clamped to 1..10, sign inverted
(stick up = negative delta). -/
def CalculateScrollDelta (y : Int) (cfg : STICK_CONFIG) : Int :=
  let absY := if y < 0 then -y else y
  if absY < (cfg.deadzone : Int) then 0
  else
    let magnitude := if absY > (cfg.saturation : Int) then (cfg.saturation : Int) else absY
    if (cfg.saturation : Int) ≤ (cfg.deadzone : Int) then 0
    else
      let normalized := ((magnitude - (cfg.deadzone : Int)) * 100) /
                        ((cfg.saturation : Int) - (cfg.deadzone : Int))
      let scrollDelta := (normalized * (cfg.scrollSensitivity : Int)) / 100
      let scrollDelta := if scrollDelta < 1 then 1 else scrollDelta
      let scrollDelta := if scrollDelta > 10 then 10 else scrollDelta
      if y > 0 then -scrollDelta else scrollDelta

/-- CalculateStickDirection from Xbox360Input.c.  Direction bits:
BIT0 = up, BIT1 = down, BIT2 = left, BIT3 = right.  8-way mode tests each
axis against the fixed threshold 12500; 4-way mode picks the dominant axis
beyond the deadzone. -/
def CalculateStickDirection (x y : Int) (cfg : STICK_CONFIG) : Nat :=
  let absX := if x < 0 then -x else x
  let absY := if y < 0 then -y else y
  let magnitude := if absX > absY then absX else absY
  if magnitude < (cfg.deadzone : Int) then 0
  else if cfg.directionMode = 8 then
    (if y > 12500 then 1 else 0) |||
    (if y < -12500 then 2 else 0) |||
    (if x < -12500 then 4 else 0) |||
    (if x > 12500 then 8 else 0)
  else
    if absX > absY then
      if x > (cfg.deadzone : Int) then 8
      else if x < -(cfg.deadzone : Int) then 4
      else 0
    else
      if y > (cfg.deadzone : Int) then 1
      else if y < -(cfg.deadzone : Int) then 2
      else 0

/-! ## Device state and the button/trigger decoder (Xbox360Input.c) -/

/-- Device type tag: canonical-shaped Xbox 360 devices versus the ASUS ROG
Ally, whose DirectInput reports must be normalized first. -/
inductive DeviceType where
  | xbox360
  | asusAlly
deriving DecidableEq, Repr

/-- The per-device controller state (XBOX360_STATE in KeyBoard.h): last
button mask, trigger active flags, last stick axes and last quantized
direction masks. -/
structure XBOX360_STATE where
  buttons            : Nat
  leftTriggerActive  : Bool
  rightTriggerActive : Bool
  leftStickX         : Int
  leftStickY         : Int
  rightStickX        : Int
  rightStickY        : Int
  leftStickDir       : Nat
  rightStickDir      : Nat
deriving DecidableEq, Repr

/-- The EFI_SIMPLE_POINTER_STATE portion the driver writes plus the two
button booleans. -/
structure SIMPLE_POINTER_STATE where
  relativeMovementX : Int
  relativeMovementY : Int
  relativeMovementZ : Int
  leftButton        : Bool
  rightButton       : Bool
deriving DecidableEq, Repr

/-- The slice of USB_KB_DEV (KeyBoard.h) the input pipeline reads and
writes. -/
structure USB_KB_DEV (N : Nat) where
  deviceType             : DeviceType
  xboxState              : XBOX360_STATE
  usbKeyQueue            : USB_SIMPLE_QUEUE N
  simplePointerInstalled : Bool
  simplePointerState     : SIMPLE_POINTER_STATE
  repeatKey              : Nat

/-- The XBOX360_CONFIG slice consumed by the input pipeline
(Xbox360Config.h): trigger threshold and mappings, the 16-entry button map,
and the two stick configurations.  The button map is modelled as a function
on the bit index; only indices 0..15 are ever read. -/
structure XBOX360_CONFIG where
  triggerThreshold : Nat
  leftTriggerKey   : Nat
  rightTriggerKey  : Nat
  buttonMap        : Nat → Nat
  leftStick        : STICK_CONFIG
  rightStick       : STICK_CONFIG

/-- QueueButtonTransition from Xbox360Input.c: enqueue the transition and,
on a release of the current repeat key, clear the repeat key. -/
def QueueButtonTransition {N : Nat} (dev : USB_KB_DEV N) (keyCode : Nat)
    (isPressed : Bool) : USB_KB_DEV N :=
  let dev2 := { dev with usbKeyQueue := Enqueue dev.usbKeyQueue ⟨keyCode, isPressed⟩ }
  if isPressed = false ∧ dev2.repeatKey = keyCode then { dev2 with repeatKey := 0 } else dev2

/-- One iteration of the ProcessButtonChanges loop of Xbox360Input.c for a
single button bit: skip unchanged bits, then classify the mapping entry into
mouse-left (0xF0), mouse-right (0xF1), mouse-middle (0xF2, reserved),
disabled (0xFF) or a keyboard scan code. -/
def buttonStep {N : Nat} (cfg : XBOX360_CONFIG) (oldButtons newButtons : Nat)
    (dev : USB_KB_DEV N) (index : Nat) : USB_KB_DEV N :=
  let mask := 1 <<< index
  let wasPressed : Bool := decide ((oldButtons &&& mask) ≠ 0)
  let isPressed : Bool := decide ((newButtons &&& mask) ≠ 0)
  if wasPressed = isPressed then dev
  else
    let keyMapping := cfg.buttonMap index
    if keyMapping = 0xF0 ∧ dev.simplePointerInstalled = true then
      { dev with simplePointerState := { dev.simplePointerState with leftButton := isPressed } }
    else if keyMapping = 0xF1 ∧ dev.simplePointerInstalled = true then
      { dev with simplePointerState := { dev.simplePointerState with rightButton := isPressed } }
    else if keyMapping = 0xF2 ∧ dev.simplePointerInstalled = true then
      dev
    else if keyMapping ≠ 0xFF then
      QueueButtonTransition dev keyMapping isPressed
    else dev

/-- ProcessButtonChanges from Xbox360Input.c: iterate over the 16 button
bits. -/
def ProcessButtonChanges {N : Nat} (cfg : XBOX360_CONFIG) (dev : USB_KB_DEV N)
    (oldButtons newButtons : Nat) : USB_KB_DEV N :=
  (List.range 16).foldl (buttonStep cfg oldButtons newButtons) dev

/-- A concrete ring buffer used by the witnesses. -/
def sampleQueue : USB_SIMPLE_QUEUE 4 := ⟨fun _ => ⟨0, false⟩, 0, 0⟩

/-- A concrete device used by the witnesses. -/
def sampleDev : USB_KB_DEV 4 :=
  { deviceType := .xbox360
    xboxState := ⟨0, false, false, 0, 0, 0, 0, 0, 0⟩
    usbKeyQueue := sampleQueue
    simplePointerInstalled := true
    simplePointerState := ⟨0, 0, 0, false, false⟩
    repeatKey := 0 }

/-- A concrete configuration used by the witnesses: every button maps to the
scan code 4 + bit index. -/
def sampleCfg : XBOX360_CONFIG :=
  { triggerThreshold := 128
    leftTriggerKey := 0x2C
    rightTriggerKey := 0x28
    buttonMap := fun i => 4 + i
    leftStick := ⟨2, 8000, 32000, 50, 20, 2, 4, 255, 255, 255, 255, 50, 0⟩
    rightStick := ⟨1, 8000, 32000, 50, 20, 2, 4, 82, 81, 80, 79, 50, 0⟩ }

/-- One trigger's handling inside KeyboardHandler (Xbox360Input.c, the
left- and right-trigger blocks have this identical shape): compute
pressed = (trigger byte > threshold); when that differs from the stored
active flag, classify the trigger mapping (mouse-left 0xF0, mouse-right
0xF1, disabled 0xFF, otherwise a scan code) and return the new flag value;
when it does not differ, nothing happens. -/
def TriggerStep {N : Nat} (threshold t : Nat) (oldActive : Bool) (mapping : Nat)
    (dev : USB_KB_DEV N) : Bool × USB_KB_DEV N :=
  let pressed : Bool := decide (t > threshold)
  if pressed ≠ oldActive then
    let dev2 :=
      if mapping = 0xF0 then
        (if dev.simplePointerInstalled then
          { dev with simplePointerState :=
              { dev.simplePointerState with leftButton := pressed } }
         else dev)
      else if mapping = 0xF1 then
        (if dev.simplePointerInstalled then
          { dev with simplePointerState :=
              { dev.simplePointerState with rightButton := pressed } }
         else dev)
      else if mapping ≠ 0xFF then QueueButtonTransition dev mapping pressed
      else dev
    (pressed, dev2)
  else (oldActive, dev)

/-! ## ASUS ROG Ally report normalization (AsusAllyDevice.c) -/

/-- Little-endian 16-bit read of two report bytes, as done throughout the
driver (Report[i] | Report[i+1] << 8).  Out-of-range reads default to 0. -/
def readU16 (r : List Nat) (i : Nat) : Nat :=
  r.getD i 0 ||| ((r.getD (i + 1) 0) <<< 8)

/-- The ASUS_ALLY_HID_REPORT struct of AsusAllyDevice.h (packed): report id,
four unsigned 16-bit stick axes, two 10-bit triggers stored as UINT16, and
the button bytes.  Buttons[3] is never read by the code and is omitted. -/
structure ASUS_ALLY_HID_REPORT where
  reportId     : Nat
  leftStickX   : Nat
  leftStickY   : Nat
  rightStickX  : Nat
  rightStickY  : Nat
  leftTrigger  : Nat
  rightTrigger : Nat
  buttons0     : Nat
  buttons1     : Nat
  buttons2     : Nat
deriving DecidableEq, Repr

/-- Overlay the packed ASUS_ALLY_HID_REPORT struct on the raw bytes at the
given base offset (the C code casts a byte pointer to the struct type). -/
def decodeAllyStruct (r : List Nat) (base : Nat) : ASUS_ALLY_HID_REPORT :=
  { reportId     := r.getD base 0
    leftStickX   := readU16 r (base + 1)
    leftStickY   := readU16 r (base + 3)
    rightStickX  := readU16 r (base + 5)
    rightStickY  := readU16 r (base + 7)
    leftTrigger  := readU16 r (base + 9)
    rightTrigger := readU16 r (base + 11)
    buttons0     := r.getD (base + 13) 0
    buttons1     := r.getD (base + 14) 0
    buttons2     := r.getD (base + 15) 0 }

/-- Reinterpret a 16-bit pattern as the signed INT16 it encodes. -/
def toInt16 (n : Nat) : Int :=
  if n % 65536 < 32768 then ((n % 65536 : Nat) : Int) else ((n % 65536 : Nat) : Int) - 65536

/-- Truncate a signed value to its 16-bit two's-complement pattern, as the
C cast (INT16)(...) followed by a 2-byte CopyMem stores it. -/
def toUInt16 (v : Int) : Nat := (v % 65536).toNat

/-- The field-remapping part of ConvertAsusAllyToXbox360 (AsusAllyDevice.c):
hat-switch value to D-pad bit mask via the fixed switch, the eight discrete
buttons and the three Buttons[1] buttons to their Xbox 360 bit positions,
10-bit triggers to 8 bits by a right shift of 2, and unsigned stick axes to
signed by subtracting 32768.  The result is the canonical 20-byte report
(bytes 14..19 stay zero from the initial ZeroMem). -/
def ConvertAllyFields (ally : ASUS_ALLY_HID_REPORT) : List Nat :=
  let dpadBits : Nat :=
    if ally.buttons2 = 1 then 1                -- up
    else if ally.buttons2 = 2 then 1 ||| 8     -- up + right
    else if ally.buttons2 = 3 then 8           -- right
    else if ally.buttons2 = 4 then 2 ||| 8     -- down + right
    else if ally.buttons2 = 5 then 2           -- down
    else if ally.buttons2 = 6 then 2 ||| 4     -- down + left
    else if ally.buttons2 = 7 then 4           -- left
    else if ally.buttons2 = 8 then 1 ||| 4     -- up + left
    else 0                                     -- neutral and default
  let xboxButtons := dpadBits
  let xboxButtons := if ally.buttons0 &&& 1 ≠ 0 then xboxButtons ||| (1 <<< 12) else xboxButtons
  let xboxButtons := if ally.buttons0 &&& 2 ≠ 0 then xboxButtons ||| (1 <<< 13) else xboxButtons
  let xboxButtons := if ally.buttons0 &&& 4 ≠ 0 then xboxButtons ||| (1 <<< 14) else xboxButtons
  let xboxButtons := if ally.buttons0 &&& 8 ≠ 0 then xboxButtons ||| (1 <<< 15) else xboxButtons
  let xboxButtons := if ally.buttons0 &&& 16 ≠ 0 then xboxButtons ||| (1 <<< 8) else xboxButtons
  let xboxButtons := if ally.buttons0 &&& 32 ≠ 0 then xboxButtons ||| (1 <<< 9) else xboxButtons
  let xboxButtons := if ally.buttons0 &&& 64 ≠ 0 then xboxButtons ||| (1 <<< 5) else xboxButtons
  let xboxButtons := if ally.buttons0 &&& 128 ≠ 0 then xboxButtons ||| (1 <<< 4) else xboxButtons
  let xboxButtons := if ally.buttons1 &&& 1 ≠ 0 then xboxButtons ||| (1 <<< 6) else xboxButtons
  let xboxButtons := if ally.buttons1 &&& 2 ≠ 0 then xboxButtons ||| (1 <<< 7) else xboxButtons
  let xboxButtons := if ally.buttons1 &&& 4 ≠ 0 then xboxButtons ||| (1 <<< 10) else xboxButtons
  let lsx := toUInt16 ((ally.leftStickX : Int) - 32768)
  let lsy := toUInt16 ((ally.leftStickY : Int) - 32768)
  let rsx := toUInt16 ((ally.rightStickX : Int) - 32768)
  let rsy := toUInt16 ((ally.rightStickY : Int) - 32768)
  [0x00, 0x14,
   xboxButtons &&& 0xFF, (xboxButtons >>> 8) &&& 0xFF,
   (ally.leftTrigger >>> 2) % 256, (ally.rightTrigger >>> 2) % 256,
   lsx % 256, lsx / 256,
   lsy % 256, lsy / 256,
   rsx % 256, rsx / 256,
   rsy % 256, rsy / 256,
   0, 0, 0, 0, 0, 0]

/-- ConvertAsusAllyToXbox360 from AsusAllyDevice.c: reject reports shorter
than 16 bytes; when the report is 17 bytes long and its leading byte is the
report id 0x0B, skip that byte; then remap the struct fields. -/
def ConvertAsusAllyToXbox360 (allyReport : List Nat) : Except Unit (List Nat) :=
  if allyReport.length < 16 then .error ()
  else
    let base := if allyReport.length = 17 ∧ allyReport.getD 0 0 = 0x0B then 1 else 0
    .ok (ConvertAllyFields (decodeAllyStruct allyReport base))

/-- Does the converter reject the report? -/
def convertFails (r : List Nat) : Bool :=
  match ConvertAsusAllyToXbox360 r with
  | .error _ => true
  | .ok _ => false

/-! ## Stick direction changes and the report handler (Xbox360Input.c) -/

/-- ProcessStickDirectionChange from Xbox360Input.c: queue one transition
for each direction bit that changed, using the per-direction key mapping
(0xFF = disabled). -/
def ProcessStickDirectionChange {N : Nat} (dev : USB_KB_DEV N) (oldDir newDir : Nat)
    (cfg : STICK_CONFIG) : USB_KB_DEV N :=
  let changed := oldDir ^^^ newDir
  if changed = 0 then dev
  else
    let dev := if changed &&& 1 ≠ 0 then
        (if cfg.upMapping ≠ 0xFF then
          QueueButtonTransition dev cfg.upMapping (decide (newDir &&& 1 ≠ 0))
         else dev)
      else dev
    let dev := if changed &&& 2 ≠ 0 then
        (if cfg.downMapping ≠ 0xFF then
          QueueButtonTransition dev cfg.downMapping (decide (newDir &&& 2 ≠ 0))
         else dev)
      else dev
    let dev := if changed &&& 4 ≠ 0 then
        (if cfg.leftMapping ≠ 0xFF then
          QueueButtonTransition dev cfg.leftMapping (decide (newDir &&& 4 ≠ 0))
         else dev)
      else dev
    let dev := if changed &&& 8 ≠ 0 then
        (if cfg.rightMapping ≠ 0xFF then
          QueueButtonTransition dev cfg.rightMapping (decide (newDir &&& 8 ≠ 0))
         else dev)
      else dev
    dev

/-- ProcessStickChanges from Xbox360Input.c: keys mode edge-detects the
quantized direction per stick; mouse mode (left stick priority) overwrites
the pointer X/Y deltas; scroll mode overwrites the pointer Z delta.
Stick modes: 1 = keys, 2 = mouse, 3 = scroll. -/
def ProcessStickChanges {N : Nat} (cfg : XBOX360_CONFIG) (dev : USB_KB_DEV N)
    (oldLX oldLY oldRX oldRY : Int) : USB_KB_DEV N :=
  let dev :=
    if cfg.leftStick.mode = 1 then
      let oldLeftDir := CalculateStickDirection oldLX oldLY cfg.leftStick
      let newLeftDir := CalculateStickDirection dev.xboxState.leftStickX
        dev.xboxState.leftStickY cfg.leftStick
      if oldLeftDir ≠ newLeftDir then
        let dev := ProcessStickDirectionChange dev oldLeftDir newLeftDir cfg.leftStick
        { dev with xboxState := { dev.xboxState with leftStickDir := newLeftDir } }
      else dev
    else dev
  let dev :=
    if cfg.rightStick.mode = 1 then
      let oldRightDir := CalculateStickDirection oldRX oldRY cfg.rightStick
      let newRightDir := CalculateStickDirection dev.xboxState.rightStickX
        dev.xboxState.rightStickY cfg.rightStick
      if oldRightDir ≠ newRightDir then
        let dev := ProcessStickDirectionChange dev oldRightDir newRightDir cfg.rightStick
        { dev with xboxState := { dev.xboxState with rightStickDir := newRightDir } }
      else dev
    else dev
  let dev :=
    if cfg.leftStick.mode = 2 ∨ cfg.rightStick.mode = 2 then
      let d : Int × Int :=
        if cfg.leftStick.mode = 2 then
          CalculateMouseMovement dev.xboxState.leftStickX dev.xboxState.leftStickY
            cfg.leftStick
        else if cfg.rightStick.mode = 2 then
          CalculateMouseMovement dev.xboxState.rightStickX dev.xboxState.rightStickY
            cfg.rightStick
        else (0, 0)
      if dev.simplePointerInstalled then
        { dev with simplePointerState := { dev.simplePointerState with
            relativeMovementX := d.1, relativeMovementY := d.2 } }
      else dev
    else dev
  let dev :=
    if cfg.leftStick.mode = 3 ∨ cfg.rightStick.mode = 3 then
      let s : Int :=
        if cfg.leftStick.mode = 3 then
          CalculateScrollDelta dev.xboxState.leftStickY cfg.leftStick
        else if cfg.rightStick.mode = 3 then
          CalculateScrollDelta dev.xboxState.rightStickY cfg.rightStick
        else 0
      if dev.simplePointerInstalled then
        { dev with simplePointerState := { dev.simplePointerState with
            relativeMovementZ := s } }
      else dev
    else dev
  dev

/-- The field store XboxState.LeftTriggerActive = ... of KeyboardHandler. -/
def setLeftTriggerActive {N : Nat} (dev : USB_KB_DEV N) (b : Bool) : USB_KB_DEV N :=
  { dev with xboxState := { dev.xboxState with leftTriggerActive := b } }

/-- The field store XboxState.RightTriggerActive = ... of KeyboardHandler. -/
def setRightTriggerActive {N : Nat} (dev : USB_KB_DEV N) (b : Bool) : USB_KB_DEV N :=
  { dev with xboxState := { dev.xboxState with rightTriggerActive := b } }

/-- The trigger block of KeyboardHandler (Xbox360Input.c, bytes 4 and 5 of
the report): the left then the right trigger are compared against the
shared threshold, each state change is classified through TriggerStep, and
the active flags are stored back. -/
def triggerPhase {N : Nat} (cfg : XBOX360_CONFIG) (dev : USB_KB_DEV N)
    (t4 t5 : Nat) : USB_KB_DEV N :=
  let res := TriggerStep cfg.triggerThreshold t4 dev.xboxState.leftTriggerActive
    cfg.leftTriggerKey dev
  let dev := setLeftTriggerActive res.2 res.1
  let res2 := TriggerStep cfg.triggerThreshold t5 dev.xboxState.rightTriggerActive
    cfg.rightTriggerKey dev
  setRightTriggerActive res2.2 res2.1

/-- The EFI status values the report handler returns. -/
inductive EfiStatus where
  | success
  | deviceError
deriving DecidableEq, Repr

/-- KeyboardHandler from Xbox360Input.c, modelled as a state transition on
the device.  The USB error branch (Result different from EFI_USB_NOERROR)
clears the repeat key, performs USB housekeeping outside this model's state
and returns EFI_DEVICE_ERROR.  Short or null reports are accepted piecewise:
buttons need 4 bytes, triggers 6, sticks 14.  ASUS Ally reports are
normalized first (a failed conversion drops the report); the converted
report is 20 bytes long, matching the DataLength = sizeof assignment. -/
def KeyboardHandler {N : Nat} (cfg : XBOX360_CONFIG) (dev : USB_KB_DEV N)
    (data : Option (List Nat)) (noError : Bool) : USB_KB_DEV N × EfiStatus :=
  if noError = false then
    ({ dev with repeatKey := 0 }, .deviceError)
  else
    match data with
    | none => (dev, .success)
    | some raw =>
      if raw.length < 4 then (dev, .success)
      else
        match (if dev.deviceType = .asusAlly then ConvertAsusAllyToXbox360 raw
               else .ok raw) with
        | .error _ => (dev, .success)
        | .ok report =>
          let oldButtons := dev.xboxState.buttons
          let newButtons := readU16 report 2
          let dev :=
            if oldButtons ≠ newButtons then
              let dev := ProcessButtonChanges cfg dev oldButtons newButtons
              { dev with xboxState := { dev.xboxState with buttons := newButtons } }
            else dev
          let dev :=
            if 6 ≤ report.length then
              triggerPhase cfg dev (report.getD 4 0) (report.getD 5 0)
            else dev
          let dev :=
            if 14 ≤ report.length then
              let oldLX := dev.xboxState.leftStickX
              let oldLY := dev.xboxState.leftStickY
              let oldRX := dev.xboxState.rightStickX
              let oldRY := dev.xboxState.rightStickY
              let dev := { dev with xboxState := { dev.xboxState with
                leftStickX := toInt16 (readU16 report 6),
                leftStickY := toInt16 (readU16 report 8),
                rightStickX := toInt16 (readU16 report 10),
                rightStickY := toInt16 (readU16 report 12) } }
              ProcessStickChanges cfg dev oldLX oldLY oldRX oldRY
            else dev
          ({ dev with repeatKey := 0 }, .success)

/-! ## The USBParseKey keyboard state machine (KeyBoard.c) -/

/-- The EFI key modifier classes distinguished by USBParseKey.  All modifier
values the switch statements do not handle are collapsed into otherKey. -/
inductive KeyModifier where
  | leftControl
  | rightControl
  | leftShift
  | rightShift
  | leftAlt
  | rightAlt
  | leftLogo
  | rightLogo
  | menuKey
  | printKey
  | sysRequest
  | altGr
  | numLock
  | capsLock
  | scrollLock
  | deleteKey
  | otherKey
deriving DecidableEq, Repr

/-- The modifier booleans of USB_KB_DEV that USBParseKey maintains. -/
structure MODIFIER_STATE where
  leftCtrlOn   : Bool
  rightCtrlOn  : Bool
  ctrlOn       : Bool
  leftShiftOn  : Bool
  rightShiftOn : Bool
  shiftOn      : Bool
  leftAltOn    : Bool
  rightAltOn   : Bool
  altOn        : Bool
  leftLogoOn   : Bool
  rightLogoOn  : Bool
  menuKeyOn    : Bool
  sysReqOn     : Bool
  altGrOn      : Bool
  numLockOn    : Bool
  capsOn       : Bool
  scrollOn     : Bool
deriving DecidableEq, Repr

/-- The key-release switch of USBParseKey: clear the matching modifier
booleans; toggles and unhandled modifiers are ignored on release. -/
def releaseUpdate (s : MODIFIER_STATE) (m : KeyModifier) : MODIFIER_STATE :=
  match m with
  | .leftControl  => { s with leftCtrlOn := false, ctrlOn := false }
  | .rightControl => { s with rightCtrlOn := false, ctrlOn := false }
  | .leftShift    => { s with leftShiftOn := false, shiftOn := false }
  | .rightShift   => { s with rightShiftOn := false, shiftOn := false }
  | .leftAlt      => { s with leftAltOn := false, altOn := false }
  | .rightAlt     => { s with rightAltOn := false, altOn := false }
  | .leftLogo     => { s with leftLogoOn := false }
  | .rightLogo    => { s with rightLogoOn := false }
  | .menuKey      => { s with menuKeyOn := false }
  | .printKey     => { s with sysReqOn := false }
  | .sysRequest   => { s with sysReqOn := false }
  | .altGr        => { s with altGrOn := false }
  | _             => s

/-- The key-press switch of USBParseKey: set the matching modifier
booleans; NumLock/CapsLock/ScrollLock toggle on press. -/
def pressUpdate (s : MODIFIER_STATE) (m : KeyModifier) : MODIFIER_STATE :=
  match m with
  | .leftControl  => { s with leftCtrlOn := true, ctrlOn := true }
  | .rightControl => { s with rightCtrlOn := true, ctrlOn := true }
  | .leftShift    => { s with leftShiftOn := true, shiftOn := true }
  | .rightShift   => { s with rightShiftOn := true, shiftOn := true }
  | .leftAlt      => { s with leftAltOn := true, altOn := true }
  | .rightAlt     => { s with rightAltOn := true, altOn := true }
  | .leftLogo     => { s with leftLogoOn := true }
  | .rightLogo    => { s with rightLogoOn := true }
  | .menuKey      => { s with menuKeyOn := true }
  | .printKey     => { s with sysReqOn := true }
  | .sysRequest   => { s with sysReqOn := true }
  | .altGr        => { s with altGrOn := true }
  | .numLock      => { s with numLockOn := !s.numLockOn }
  | .capsLock     => { s with capsOn := !s.capsOn }
  | .scrollLock   => { s with scrollOn := !s.scrollOn }
  | _             => s

/-- Outcome of one USBParseKey call: no key ready, a key code produced with
the remaining queue, or a warm reset issued (ResetSystem does not
return). -/
inductive ParseOutcome where
  | notReady (s : MODIFIER_STATE)
  | keyOut (s : MODIFIER_STATE) (rest : List USB_KEY) (keyCode : Nat)
  | resetCalled (s : MODIFIER_STATE)
deriving Repr

/-- USBParseKey from KeyBoard.c over an abstract key-descriptor table
(layout: scan code to modifier class; none models a null descriptor, which
the loop skips).  The loop pops raw keys: releases and unresolvable keys
are consumed silently (with their modifier effect); the first press is
returned as the parsed key code, after the modifier press switch and the
Ctrl+Alt+Delete check, which issues the warm reset. -/
def USBParseKey (layout : Nat → Option KeyModifier) :
    MODIFIER_STATE → List USB_KEY → ParseOutcome
  | s, [] => .notReady s
  | s, k :: rest =>
    match layout k.keyCode with
    | none => USBParseKey layout s rest
    | some m =>
      if k.down = false then USBParseKey layout (releaseUpdate s m) rest
      else
        let s2 := pressUpdate s m
        if m = .deleteKey ∧ s2.ctrlOn = true ∧ s2.altOn = true then .resetCalled s2
        else .keyOut s2 rest k.keyCode

/-- The modifier effect of consuming a single queued key. -/
def stepState (layout : Nat → Option KeyModifier) (s : MODIFIER_STATE)
    (k : USB_KEY) : MODIFIER_STATE :=
  match layout k.keyCode with
  | none => s
  | some m => if k.down = false then releaseUpdate s m else pressUpdate s m

/-- Number of warm resets issued while draining the whole queue by repeated
USBParseKey calls.  Because ResetSystem does not return, processing stops at
the first reset, so the count is 0 or 1. -/
def DrainResets (layout : Nat → Option KeyModifier) :
    MODIFIER_STATE → List USB_KEY → Nat
  | _, [] => 0
  | s, k :: rest =>
    match layout k.keyCode with
    | none => DrainResets layout s rest
    | some m =>
      if k.down = false then DrainResets layout (releaseUpdate s m) rest
      else
        let s2 := pressUpdate s m
        if m = .deleteKey ∧ s2.ctrlOn = true ∧ s2.altOn = true then 1
        else DrainResets layout s2 rest

/-- A queued event that releases a control-class key. -/
abbrev isCtrlRelease (layout : Nat → Option KeyModifier) (k : USB_KEY) : Prop :=
  k.down = false ∧ (layout k.keyCode = some .leftControl ∨
    layout k.keyCode = some .rightControl)

/-- A queued event that releases an alt-class key. -/
abbrev isAltRelease (layout : Nat → Option KeyModifier) (k : USB_KEY) : Prop :=
  k.down = false ∧ (layout k.keyCode = some .leftAlt ∨
    layout k.keyCode = some .rightAlt)

/-- A concrete modifier state with everything off, for the witnesses. -/
def sampleMods : MODIFIER_STATE :=
  ⟨false, false, false, false, false, false, false, false, false, false,
   false, false, false, false, false, false, false⟩

/-- A concrete layout for the witnesses: scan code 1 is left ctrl, 2 is
left alt, 3 is the Delete class, everything else unresolvable. -/
def sampleLayout : Nat → Option KeyModifier := fun c =>
  if c = 1 then some .leftControl
  else if c = 2 then some .leftAlt
  else if c = 3 then some .deleteKey
  else none

/-! ## Verified properties -/

lemma mod_two_regions (M x : Nat) (hM : 0 < M) (hx : x < 2 * M) :
    x % M = if x < M then x else x - M := by
  split
  · exact Nat.mod_eq_of_lt (by omega)
  · rw [Nat.mod_eq_sub_mod (by omega)]
    exact Nat.mod_eq_of_lt (by omega)

lemma add_mod_mod_left (M a b : Nat) : (a % M + b) % M = (a + b) % M :=
  (Nat.mod_modEq a M).add_right b

lemma add_mod_mod_right (M a b : Nat) : (a + b % M) % M = (a + b) % M :=
  (Nat.mod_modEq b M).add_left a

/-- Walking qLen steps from Head reaches Tail. -/
lemma head_add_qLen (M h t : Nat) (hM : 0 < M) (hh : h < M) (ht : t < M) :
    (h + (t + M - h) % M) % M = t := by
  rw [add_mod_mod_right]
  have he : h + (t + M - h) = t + M := by omega
  rw [he, Nat.add_mod_right]
  exact Nat.mod_eq_of_lt ht

lemma add_mod_cancel (M h i j : Nat) (hi : i < M) (hj : j < M)
    (he : (h + i) % M = (h + j) % M) : i = j := by
  have h2 : i % M = j % M := Nat.ModEq.add_left_cancel' h he
  rwa [Nat.mod_eq_of_lt hi, Nat.mod_eq_of_lt hj] at h2

/-- The ring distance from h to (h + d) % M is d, for d < M. -/
lemma ring_dist_eq (M h x d : Nat) (hM : 0 < M) (hh : h < M) (hd : d < M)
    (he : (h + d) % M = x) : (x + M - h) % M = d := by
  subst he
  have hv := mod_two_regions M (h + d) hM (by omega)
  split at hv <;> rw [hv]
  · have he2 : h + d + M - h = d + M := by omega
    rw [he2, Nat.add_mod_right]
    exact Nat.mod_eq_of_lt hd
  · have he2 : h + d - M + M - h = d := by omega
    rw [he2]
    exact Nat.mod_eq_of_lt hd

lemma qLen_lt {N : Nat} (q : USB_SIMPLE_QUEUE N) : qLen q < N + 1 :=
  Nat.mod_lt _ (by omega)

/-- The key structural fact about Enqueue: it appends the new item at the
tail; if the queue was full it first drops the oldest item, and only that
one, so the FIFO order of the remaining items is preserved. -/
lemma qItems_enqueue {N : Nat} (hN : 1 ≤ N) (q : USB_SIMPLE_QUEUE N) (k : USB_KEY)
    (hh : q.head < N + 1) (ht : q.tail < N + 1) :
    qItems (Enqueue q k) =
      (if IsQueueFull q then (qItems q).drop 1 else qItems q) ++ [k] := by
  rcases q with ⟨buf, h, t⟩
  simp only at hh ht
  have hM : 0 < N + 1 := by omega
  by_cases hfull : (t + 1) % (N + 1) = h
  · -- Full queue: Head advances by one, the written slot is the old Tail.
    -- Walking N from Head reaches Tail.
    have hhead : (h + N) % (N + 1) = t := by
      rw [← hfull, add_mod_mod_left]
      have he : t + 1 + N = t + (N + 1) := by omega
      rw [he, Nat.add_mod_right]
      exact Nat.mod_eq_of_lt ht
    -- The queue holds N items.
    have hL : (t + (N + 1) - h) % (N + 1) = N := ring_dist_eq _ h t N hM hh (by omega) hhead
    -- The new queue also holds N items.
    have hh1 : (h + 1) % (N + 1) < N + 1 := Nat.mod_lt _ hM
    have hstep : ((h + 1) % (N + 1) + N) % (N + 1) = h := by
      rw [add_mod_mod_left]
      have he : h + 1 + N = h + (N + 1) := by omega
      rw [he, Nat.add_mod_right]
      exact Nat.mod_eq_of_lt hh
    have hL2 : (h + (N + 1) - (h + 1) % (N + 1)) % (N + 1) = N :=
      ring_dist_eq _ ((h + 1) % (N + 1)) h N hM hh1 (by omega) hstep
    simp only [qItems, qLen, Enqueue, IsQueueFull, hfull, beq_self_eq_true, if_true]
    rw [hL, hL2]
    apply List.ext_getElem
    · simp only [List.length_map, List.length_range, List.length_append,
        List.length_drop, List.length_cons, List.length_nil]
      omega
    · intro i hi1 hi2
      simp only [List.length_map, List.length_range] at hi1
      simp only [List.getElem_map, List.getElem_range]
      have hidx : ((h + 1) % (N + 1) + i) % (N + 1) = (h + (1 + i)) % (N + 1) := by
        rw [add_mod_mod_left]
        have he : h + 1 + i = h + (1 + i) := by omega
        rw [he]
      by_cases hlast : i < N - 1
      · -- interior positions: old item number i + 1 survives
        have hne : (h + (1 + i)) % (N + 1) ≠ t := by
          intro hcontra
          rw [← hhead] at hcontra
          have := add_mod_cancel (N + 1) h (1 + i) N (by omega) (by omega) hcontra
          omega
        rw [List.getElem_append_left (by
          simp only [List.length_drop, List.length_map, List.length_range]; omega)]
        rw [List.getElem_drop]
        simp only [List.getElem_map, List.getElem_range]
        rw [hidx, if_neg hne]
      · -- last position: the freshly written item
        have hieq : i = N - 1 := by omega
        have htt : (h + (1 + i)) % (N + 1) = t := by
          have he : 1 + i = N := by omega
          rw [he, hhead]
        rw [List.getElem_append_right (by
          simp only [List.length_drop, List.length_map, List.length_range]; omega)]
        simp only [List.length_drop, List.length_map, List.length_range]
        rw [hidx, if_pos htt]
        simp [hieq]
  · -- Queue not full: Head stays, the item count grows by one.
    have hadd : (h + (t + (N + 1) - h) % (N + 1)) % (N + 1) = t :=
      head_add_qLen _ h t hM hh ht
    have hLlt : (t + (N + 1) - h) % (N + 1) < N + 1 := Nat.mod_lt _ hM
    have hLne : (t + (N + 1) - h) % (N + 1) ≠ N := by
      intro hLN
      apply hfull
      rw [← hadd, add_mod_mod_left, hLN]
      have he : h + N + 1 = h + (N + 1) := by omega
      rw [he, Nat.add_mod_right]
      exact Nat.mod_eq_of_lt hh
    have hstep : (h + ((t + (N + 1) - h) % (N + 1) + 1)) % (N + 1) = (t + 1) % (N + 1) := by
      have he : h + ((t + (N + 1) - h) % (N + 1) + 1)
          = h + (t + (N + 1) - h) % (N + 1) + 1 := by omega
      rw [he, ← add_mod_mod_left (N + 1) (h + (t + (N + 1) - h) % (N + 1)) 1, hadd]
    have hL2 : ((t + 1) % (N + 1) + (N + 1) - h) % (N + 1)
        = (t + (N + 1) - h) % (N + 1) + 1 :=
      ring_dist_eq _ h ((t + 1) % (N + 1)) _ hM hh (by omega) hstep
    have hbf : ((t + 1) % (N + 1) == h) = false := by simp [hfull]
    simp only [qItems, qLen, Enqueue, IsQueueFull, hbf, Bool.false_eq_true, if_false]
    rw [hL2]
    apply List.ext_getElem
    · simp only [List.length_map, List.length_range, List.length_append,
        List.length_cons, List.length_nil]
    · intro i hi1 hi2
      simp only [List.length_map, List.length_range] at hi1
      simp only [List.getElem_map, List.getElem_range]
      by_cases hlast : i < (t + (N + 1) - h) % (N + 1)
      · have hne : (h + i) % (N + 1) ≠ t := by
          intro hcontra
          rw [← hadd] at hcontra
          have := add_mod_cancel (N + 1) h i _ (by omega) hLlt hcontra
          omega
        rw [List.getElem_append_left (by
          simp only [List.length_map, List.length_range]; omega)]
        simp only [List.getElem_map, List.getElem_range]
        rw [if_neg hne]
      · have hieq : i = (t + (N + 1) - h) % (N + 1) := by omega
        have htt : (h + i) % (N + 1) = t := by rw [hieq, hadd]
        rw [List.getElem_append_right (by
          simp only [List.length_map, List.length_range]; omega)]
        simp only [List.length_map, List.length_range]
        rw [if_pos htt]
        simp [hieq]

/-- Claim C2: for every sequence of Enqueue and Dequeue operations the number
of unread items never exceeds the fixed capacity N (the ring of N + 1 slots
keeps one slot free); and enqueuing into a full queue evicts exactly the
oldest unread item, never the newly enqueued one, preserving the FIFO order
of the remaining items. -/
theorem queue_bounded_and_evicts_oldest {N : Nat} (hN : 1 ≤ N)
    (ops : List QueueOp) (q0 q : USB_SIMPLE_QUEUE N) (k : USB_KEY)
    (hh : q.head < N + 1) (ht : q.tail < N + 1) :
    qLen (runOps ops q0) ≤ N ∧
    qItems (Enqueue q k) =
      (if IsQueueFull q then (qItems q).drop 1 else qItems q) ++ [k] := by
  refine ⟨?_, qItems_enqueue hN q k hh ht⟩
  have := qLen_lt (runOps ops q0)
  omega

/-- Witness for C2 at capacity N = 1 on a concrete full queue: the single
unread item is evicted and the new item is retained. -/
theorem queue_bounded_and_evicts_oldest_witness :
    1 ≤ 1 ∧
      ((⟨fun j => ⟨j, false⟩, 0, 1⟩ : USB_SIMPLE_QUEUE 1).head < 2 ∧
       (⟨fun j => ⟨j, false⟩, 0, 1⟩ : USB_SIMPLE_QUEUE 1).tail < 2) ∧
    (qLen (runOps [] (⟨fun j => ⟨j, false⟩, 0, 1⟩ : USB_SIMPLE_QUEUE 1)) ≤ 1 ∧
     qItems (Enqueue (⟨fun j => ⟨j, false⟩, 0, 1⟩ : USB_SIMPLE_QUEUE 1) ⟨5, true⟩) =
      (if IsQueueFull (⟨fun j => ⟨j, false⟩, 0, 1⟩ : USB_SIMPLE_QUEUE 1) then
        (qItems (⟨fun j => ⟨j, false⟩, 0, 1⟩ : USB_SIMPLE_QUEUE 1)).drop 1
       else qItems (⟨fun j => ⟨j, false⟩, 0, 1⟩ : USB_SIMPLE_QUEUE 1)) ++ [⟨5, true⟩]) :=
  ⟨by decide, ⟨by decide, by decide⟩,
    queue_bounded_and_evicts_oldest (by decide) [] _ _ ⟨5, true⟩ (by decide) (by decide)⟩

lemma code_abs (x : Int) : (if x < 0 then -x else x) = |x| := by
  rcases lt_or_ge x 0 with h | h
  · rw [if_pos h, abs_of_neg h]
  · rw [if_neg (not_lt.mpr h), abs_of_nonneg h]

lemma code_max (a b : Int) : (if a > b then a else b) = max a b := by
  split <;> omega

/-- Claim C6: inside the deadzone (max(abs x, abs y) < Deadzone) all three
stick processors produce zero: no mouse delta, no scroll delta, no direction
bits. -/
theorem stick_deadzone_all_outputs_zero (x y : Int) (cfg : STICK_CONFIG)
    (hdz : max |x| |y| < (cfg.deadzone : Int)) :
    CalculateMouseMovement x y cfg = (0, 0) ∧
    CalculateScrollDelta y cfg = 0 ∧
    CalculateStickDirection x y cfg = 0 := by
  have hy : |y| < (cfg.deadzone : Int) := lt_of_le_of_lt (le_max_right _ _) hdz
  refine ⟨?_, ?_, ?_⟩
  · simp only [CalculateMouseMovement, code_abs, code_max]
    rw [if_pos hdz]
  · simp only [CalculateScrollDelta, code_abs]
    rw [if_pos hy]
  · simp only [CalculateStickDirection, code_abs, code_max]
    rw [if_pos hdz]

/-- Witness for C6 at x = 100, y = -200, deadzone = 8000. -/
theorem stick_deadzone_all_outputs_zero_witness :
    max |(100 : Int)| |(-200 : Int)| < ((8000 : Nat) : Int) ∧
    (CalculateMouseMovement 100 (-200) ⟨2, 8000, 32000, 50, 20, 2, 4, 255, 255, 255, 255, 50, 0⟩ = (0, 0) ∧
     CalculateScrollDelta (-200) ⟨2, 8000, 32000, 50, 20, 2, 4, 255, 255, 255, 255, 50, 0⟩ = 0 ∧
     CalculateStickDirection 100 (-200) ⟨2, 8000, 32000, 50, 20, 2, 4, 255, 255, 255, 255, 50, 0⟩ = 0) :=
  ⟨by decide, stick_deadzone_all_outputs_zero 100 (-200) _ (by decide)⟩

/-- Claim C7: the worked fixed-point example.  X = 20000, Y = 0 with
deadzone 8000, saturation 32000, sensitivity 50, max speed 20 and the
square curve give deltas (2, 0); the square curve maps the normalized
value 5000 to 2500. -/
theorem mouse_example_20000 :
    CalculateMouseMovement 20000 0 ⟨2, 8000, 32000, 50, 20, 2, 4, 255, 255, 255, 255, 50, 0⟩
      = (2, 0) ∧
    ApplyResponseCurve 5000 2 = 2500 := by
  constructor <;> decide

/-- Claim C10: with Saturation ≤ Deadzone (an otherwise degenerate
configuration) and the stick outside the deadzone, both the mouse and the
scroll computation bail out with zero instead of reaching the
normalization division, whose divisor Saturation - Deadzone would not be
positive. -/
theorem degenerate_saturation_zero_outputs (x y : Int) (cfg : STICK_CONFIG)
    (hsat : cfg.saturation ≤ cfg.deadzone)
    (hout : (cfg.deadzone : Int) ≤ max |x| |y|) :
    CalculateMouseMovement x y cfg = (0, 0) ∧
    CalculateScrollDelta y cfg = 0 := by
  have hsat2 : (cfg.saturation : Int) ≤ (cfg.deadzone : Int) := by exact_mod_cast hsat
  constructor
  · simp only [CalculateMouseMovement, code_abs, code_max]
    rw [if_neg (not_lt.mpr hout), if_pos hsat2]
  · simp only [CalculateScrollDelta, code_abs]
    by_cases hy : |y| < (cfg.deadzone : Int)
    · rw [if_pos hy]
    · rw [if_neg hy, if_pos hsat2]

/-- Witness for C10 at x = 9000, y = 0, saturation 500 ≤ deadzone 8000. -/
theorem degenerate_saturation_zero_outputs_witness :
    (500 : Nat) ≤ 8000 ∧ ((8000 : Nat) : Int) ≤ max |(9000 : Int)| |(0 : Int)| ∧
    (CalculateMouseMovement 9000 0 ⟨2, 8000, 500, 50, 20, 2, 4, 255, 255, 255, 255, 50, 0⟩ = (0, 0) ∧
     CalculateScrollDelta 0 ⟨2, 8000, 500, 50, 20, 2, 4, 255, 255, 255, 255, 50, 0⟩ = 0) :=
  ⟨by decide, by decide,
    degenerate_saturation_zero_outputs 9000 0 _ (by decide) (by decide)⟩

lemma and_shift_ne_zero (n i : Nat) : (n &&& (1 <<< i)) ≠ 0 ↔ n.testBit i := by
  rw [Nat.shiftLeft_eq, one_mul, Nat.and_two_pow]
  rcases h : n.testBit i <;> simp [h, Nat.pos_iff_ne_zero, Nat.pos_pow_of_pos]

lemma decide_and_shift (n i : Nat) :
    decide ((n &&& (1 <<< i)) ≠ 0) = n.testBit i := by
  rcases h : n.testBit i <;> simp [and_shift_ne_zero, h]

lemma QueueButtonTransition_queue {N : Nat} (dev : USB_KB_DEV N) (k : Nat) (b : Bool) :
    (QueueButtonTransition dev k b).usbKeyQueue = Enqueue dev.usbKeyQueue ⟨k, b⟩ := by
  simp only [QueueButtonTransition]
  split <;> rfl

lemma QueueButtonTransition_frame {N : Nat} (dev : USB_KB_DEV N) (k : Nat) (b : Bool) :
    (QueueButtonTransition dev k b).simplePointerState = dev.simplePointerState ∧
    (QueueButtonTransition dev k b).xboxState = dev.xboxState ∧
    (QueueButtonTransition dev k b).simplePointerInstalled = dev.simplePointerInstalled ∧
    (QueueButtonTransition dev k b).deviceType = dev.deviceType := by
  simp only [QueueButtonTransition]
  split <;> exact ⟨rfl, rfl, rfl, rfl⟩

lemma QueueButtonTransition_xboxState {N : Nat} (dev : USB_KB_DEV N) (k : Nat) (b : Bool) :
    (QueueButtonTransition dev k b).xboxState = dev.xboxState :=
  (QueueButtonTransition_frame dev k b).2.1

lemma QueueButtonTransition_pointerState {N : Nat} (dev : USB_KB_DEV N) (k : Nat) (b : Bool) :
    (QueueButtonTransition dev k b).simplePointerState = dev.simplePointerState :=
  (QueueButtonTransition_frame dev k b).1

/-- The per-list workhorse behind claim C1: over any index list whose map
entries are plain scan codes, the fold enqueues exactly one transition per
changed bit, in index order, and leaves the pointer state alone. -/
lemma buttonFold_spec {N : Nat} (cfg : XBOX360_CONFIG) (B1 B2 : Nat) :
    ∀ (L : List Nat) (dev : USB_KB_DEV N),
      (∀ i ∈ L, (cfg.buttonMap i < 0xF0 ∨ 0xF4 < cfg.buttonMap i) ∧ cfg.buttonMap i ≠ 0xFF) →
      (L.foldl (buttonStep cfg B1 B2) dev).usbKeyQueue =
        ((L.filter (fun i => (B1 ^^^ B2).testBit i)).map
          (fun i => (⟨cfg.buttonMap i, B2.testBit i⟩ : USB_KEY))).foldl Enqueue dev.usbKeyQueue ∧
      (L.foldl (buttonStep cfg B1 B2) dev).simplePointerState = dev.simplePointerState := by
  intro L
  induction L with
  | nil => intro dev _; exact ⟨rfl, rfl⟩
  | cons i L ih =>
    intro dev hmap
    have hmi := hmap i (by simp)
    have hmapL : ∀ j ∈ L, (cfg.buttonMap j < 0xF0 ∨ 0xF4 < cfg.buttonMap j) ∧
        cfg.buttonMap j ≠ 0xFF := fun j hj => hmap j (by simp [hj])
    simp only [List.foldl_cons, List.filter_cons]
    by_cases hch : B1.testBit i = B2.testBit i
    · -- unchanged bit: no transition, device untouched
      have hxor : (B1 ^^^ B2).testBit i = false := by
        rw [Nat.testBit_xor, hch]
        simp
      have hstep : buttonStep cfg B1 B2 dev i = dev := by
        simp only [buttonStep, decide_and_shift, hch, if_pos]
      rw [hstep, hxor]
      simpa using ih dev hmapL
    · -- changed bit: exactly one transition is enqueued
      obtain ⟨hrange, hff⟩ := hmi
      have h240 : cfg.buttonMap i ≠ 0xF0 := by omega
      have h241 : cfg.buttonMap i ≠ 0xF1 := by omega
      have h242 : cfg.buttonMap i ≠ 0xF2 := by omega
      have hxor : (B1 ^^^ B2).testBit i = true := by
        rw [Nat.testBit_xor]
        rcases h1 : B1.testBit i <;> rcases h2 : B2.testBit i <;>
          simp [h1, h2] at hch ⊢
      have hstep : buttonStep cfg B1 B2 dev i
          = QueueButtonTransition dev (cfg.buttonMap i) (B2.testBit i) := by
        simp only [buttonStep, decide_and_shift]
        rw [if_neg hch, if_neg (fun hc => h240 hc.1), if_neg (fun hc => h241 hc.1),
          if_neg (fun hc => h242 hc.1), if_pos hff]
      rw [hstep, hxor]
      obtain ⟨ihq, ihp⟩ := ih (QueueButtonTransition dev (cfg.buttonMap i) (B2.testBit i)) hmapL
      refine ⟨?_, ?_⟩
      · rw [ihq, QueueButtonTransition_queue]
        simp only [if_true, List.map_cons, List.foldl_cons]
      · rw [ihp, (QueueButtonTransition_frame dev (cfg.buttonMap i) (B2.testBit i)).1]

/-- Claim C1: with a button map made of keyboard scan codes only (no mouse
function codes 0xF0..0xF4, no disabled 0xFF entries), processing a button
mask change B1 to B2 enqueues exactly one transition for every bit set in
B1 XOR B2 (in bit order), carrying that bit's mapped scan code and
pressed = bit(B2), enqueues nothing for unchanged bits, and leaves the
pointer state untouched. -/
theorem button_decoder_emits_exact_transitions {N : Nat} (cfg : XBOX360_CONFIG)
    (dev : USB_KB_DEV N) (B1 B2 : Nat)
    (hmap : ∀ i, i < 16 → (cfg.buttonMap i < 0xF0 ∨ 0xF4 < cfg.buttonMap i) ∧
      cfg.buttonMap i ≠ 0xFF) :
    (ProcessButtonChanges cfg dev B1 B2).usbKeyQueue =
      (((List.range 16).filter (fun i => (B1 ^^^ B2).testBit i)).map
        (fun i => (⟨cfg.buttonMap i, B2.testBit i⟩ : USB_KEY))).foldl Enqueue
        dev.usbKeyQueue ∧
    (ProcessButtonChanges cfg dev B1 B2).simplePointerState = dev.simplePointerState :=
  buttonFold_spec cfg B1 B2 (List.range 16) dev
    (fun i hi => hmap i (List.mem_range.mp hi))

/-- Witness for C1: mask change 0 to 5 with the all-scan-code sample map. -/
theorem button_decoder_emits_exact_transitions_witness :
    (∀ i, i < 16 → (sampleCfg.buttonMap i < 0xF0 ∨ 0xF4 < sampleCfg.buttonMap i) ∧
      sampleCfg.buttonMap i ≠ 0xFF) ∧
    ((ProcessButtonChanges sampleCfg sampleDev 0 5).usbKeyQueue =
      (((List.range 16).filter (fun i => ((0 : Nat) ^^^ 5).testBit i)).map
        (fun i => (⟨sampleCfg.buttonMap i, (5 : Nat).testBit i⟩ : USB_KEY))).foldl Enqueue
        sampleDev.usbKeyQueue ∧
     (ProcessButtonChanges sampleCfg sampleDev 0 5).simplePointerState =
       sampleDev.simplePointerState) :=
  ⟨by decide, button_decoder_emits_exact_transitions sampleCfg sampleDev 0 5 (by decide)⟩

/-- Claim C5: the trigger active flag after processing equals
(trigger byte > threshold), strictly; if the computed value equals the
stored flag nothing changes at all; starting from inactive, a byte equal to
the threshold does not activate, threshold + 1 does, and threshold - 1
does not. -/
theorem trigger_threshold_strict {N : Nat} (threshold t : Nat) (oldActive : Bool)
    (mapping : Nat) (dev : USB_KB_DEV N) :
    (TriggerStep threshold t oldActive mapping dev).1 = decide (t > threshold) ∧
    TriggerStep threshold t (decide (t > threshold)) mapping dev
      = (decide (t > threshold), dev) ∧
    (TriggerStep threshold threshold false mapping dev).1 = false ∧
    (TriggerStep threshold (threshold + 1) false mapping dev).1 = true ∧
    (TriggerStep threshold (threshold - 1) false mapping dev).1 = false := by
  have hsub : ¬ (threshold - 1 > threshold) := by omega
  refine ⟨?_, ?_, ?_, ?_, ?_⟩
  · by_cases h : (decide (t > threshold) : Bool) = oldActive
    · simp [TriggerStep, h]
    · simp [TriggerStep, h]
  · simp [TriggerStep]
  · simp [TriggerStep]
  · simp [TriggerStep]
  · simp [TriggerStep, hsub]

/-- Counterexample to C3 as stated: a 17-byte report whose leading byte is
0x00 (not the report id 0x0B) is nevertheless accepted by
ConvertAsusAllyToXbox360; the claimed report-id validation does not
exist. -/
theorem ally_bad_report_id_still_accepted :
    convertFails (List.replicate 17 0) = false ∧
    (List.replicate 17 0).length = 17 ∧
    (List.replicate 17 0).getD 0 0 ≠ 0x0B := by
  refine ⟨by decide, by decide, by decide⟩

/-- Claim C3 (amended): the converter returns an error precisely when the
report is shorter than 16 bytes; in particular a 16-byte report (id already
stripped by the transport) is accepted, and a 17-byte report is accepted
whether or not its leading byte is 0x0B (when it is, the id byte is
skipped; when it is not, the buffer is used as-is). -/
theorem ally_reject_iff_too_short (r : List Nat) :
    convertFails r = decide (r.length < 16) := by
  by_cases h : r.length < 16 <;> simp [convertFails, ConvertAsusAllyToXbox360, h]

lemma shiftLeft_and_eq_zero (b k m : Nat) (hm : m < 2 ^ k) : (b <<< k) &&& m = 0 := by
  apply Nat.eq_of_testBit_eq
  intro i
  rw [Nat.testBit_and, Nat.testBit_shiftLeft, Nat.zero_testBit]
  by_cases hik : k ≤ i
  · have hmf : m.testBit i = false :=
      Nat.testBit_eq_false_of_lt (lt_of_lt_of_le hm (Nat.pow_le_pow_right (by omega) hik))
    simp [hmf]
  · have hd : decide (i ≥ k) = false := by simp [hik]
    rw [hd, Bool.false_and, Bool.false_and]

lemma or_shift_and15 (x k : Nat) (hk : 4 ≤ k) : (x ||| (1 <<< k)) &&& 15 = x &&& 15 := by
  rw [Nat.and_distrib_right,
    shiftLeft_and_eq_zero 1 k 15 (lt_of_lt_of_le (by norm_num)
      (Nat.pow_le_pow_right (by norm_num) hk)),
    Nat.or_zero]

lemma bytes_reassemble (v : Nat) : (v % 256) ||| ((v / 256) <<< 8) = v := by
  apply Nat.eq_of_testBit_eq
  intro i
  have h256 : (256 : Nat) = 2 ^ 8 := by norm_num
  rw [Nat.testBit_or, h256, Nat.testBit_mod_two_pow, ← Nat.shiftRight_eq_div_pow,
    Nat.testBit_shiftLeft, Nat.testBit_shiftRight]
  by_cases hi : i < 8
  · simp [hi, (by omega : ¬ (i ≥ 8))]
  · have h8 : 8 + (i - 8) = i := by omega
    simp [hi, (by omega : i ≥ 8), h8]

lemma toInt16_toUInt16_sub (u : Nat) (hu : u < 65536) :
    toInt16 (toUInt16 ((u : Int) - 32768)) = (u : Int) - 32768 := by
  unfold toInt16 toUInt16
  split_ifs <;> omega

/-- Claim C4: on the fields of an accepted Ally report, the conversion maps
the hat-switch value through the fixed table (0 = none, 1 = up,
2 = up+right, 3 = right, 4 = down+right, 5 = down, 6 = down+left, 7 = left,
8 = up+left, anything above 8 = none; bits: 1 = up, 2 = down, 4 = left,
8 = right), each 10-bit trigger t to the byte t >>> 2, and each unsigned
16-bit stick axis u to the signed 16-bit value u - 32768. -/
theorem ally_field_remap (ally : ASUS_ALLY_HID_REPORT)
    (hlt : ally.leftTrigger < 1024) (hrt : ally.rightTrigger < 1024)
    (hlx : ally.leftStickX < 65536) (hly : ally.leftStickY < 65536)
    (hrx : ally.rightStickX < 65536) (hry : ally.rightStickY < 65536) :
    (readU16 (ConvertAllyFields ally) 2) &&& 15 =
      (if ally.buttons2 = 1 then 1                -- up
       else if ally.buttons2 = 2 then 1 ||| 8     -- up + right
       else if ally.buttons2 = 3 then 8           -- right
       else if ally.buttons2 = 4 then 2 ||| 8     -- down + right
       else if ally.buttons2 = 5 then 2           -- down
       else if ally.buttons2 = 6 then 2 ||| 4     -- down + left
       else if ally.buttons2 = 7 then 4           -- left
       else if ally.buttons2 = 8 then 1 ||| 4     -- up + left
       else 0) ∧
    (ConvertAllyFields ally).getD 4 0 = ally.leftTrigger >>> 2 ∧
    (ConvertAllyFields ally).getD 5 0 = ally.rightTrigger >>> 2 ∧
    toInt16 (readU16 (ConvertAllyFields ally) 6) = (ally.leftStickX : Int) - 32768 ∧
    toInt16 (readU16 (ConvertAllyFields ally) 8) = (ally.leftStickY : Int) - 32768 ∧
    toInt16 (readU16 (ConvertAllyFields ally) 10) = (ally.rightStickX : Int) - 32768 ∧
    toInt16 (readU16 (ConvertAllyFields ally) 12) = (ally.rightStickY : Int) - 32768 := by
  have h4 := fun x => or_shift_and15 x 4 (by norm_num)
  have h5 := fun x => or_shift_and15 x 5 (by norm_num)
  have h6 := fun x => or_shift_and15 x 6 (by norm_num)
  have h7 := fun x => or_shift_and15 x 7 (by norm_num)
  have h8 := fun x => or_shift_and15 x 8 (by norm_num)
  have h9 := fun x => or_shift_and15 x 9 (by norm_num)
  have h10 := fun x => or_shift_and15 x 10 (by norm_num)
  have h12 := fun x => or_shift_and15 x 12 (by norm_num)
  have h13 := fun x => or_shift_and15 x 13 (by norm_num)
  have h14 := fun x => or_shift_and15 x 14 (by norm_num)
  have h15 := fun x => or_shift_and15 x 15 (by norm_num)
  refine ⟨?_, ?_, ?_, ?_, ?_, ?_, ?_⟩
  · simp only [ConvertAllyFields, readU16, List.getD_cons_succ, List.getD_cons_zero]
    rw [Nat.and_distrib_right,
      shiftLeft_and_eq_zero _ 8 15 (by norm_num), Nat.or_zero,
      Nat.and_assoc]
    have h255 : (255 : Nat) &&& 15 = 15 := by decide
    rw [h255]
    simp only [apply_ite (fun z : Nat => z &&& 15), h4, h5, h6, h7, h8, h9, h10,
      h12, h13, h14, h15, ite_self]
    split_ifs <;> decide
  · simp only [ConvertAllyFields, List.getD_cons_succ, List.getD_cons_zero]
    apply Nat.mod_eq_of_lt
    rw [Nat.shiftRight_eq_div_pow]
    omega
  · simp only [ConvertAllyFields, List.getD_cons_succ, List.getD_cons_zero]
    apply Nat.mod_eq_of_lt
    rw [Nat.shiftRight_eq_div_pow]
    omega
  · simp only [ConvertAllyFields, readU16, List.getD_cons_succ, List.getD_cons_zero]
    rw [bytes_reassemble]
    exact toInt16_toUInt16_sub _ hlx
  · simp only [ConvertAllyFields, readU16, List.getD_cons_succ, List.getD_cons_zero]
    rw [bytes_reassemble]
    exact toInt16_toUInt16_sub _ hly
  · simp only [ConvertAllyFields, readU16, List.getD_cons_succ, List.getD_cons_zero]
    rw [bytes_reassemble]
    exact toInt16_toUInt16_sub _ hrx
  · simp only [ConvertAllyFields, readU16, List.getD_cons_succ, List.getD_cons_zero]
    rw [bytes_reassemble]
    exact toInt16_toUInt16_sub _ hry

/-- Witness for C4 on a concrete Ally report: hat = 2 (up+right), triggers
512 and 1023, left stick at (0, 65535), right stick centred. -/
theorem ally_field_remap_witness :
    ((512 : Nat) < 1024 ∧ (1023 : Nat) < 1024 ∧ (0 : Nat) < 65536 ∧
     (65535 : Nat) < 65536 ∧ (32768 : Nat) < 65536 ∧ (32768 : Nat) < 65536) ∧
    ((readU16 (ConvertAllyFields ⟨11, 0, 65535, 32768, 32768, 512, 1023, 0, 0, 2⟩) 2) &&& 15 = 1 ||| 8 ∧
     toInt16 (readU16 (ConvertAllyFields ⟨11, 0, 65535, 32768, 32768, 512, 1023, 0, 0, 2⟩) 6) = (0 : Int) - 32768) := by
  have h := ally_field_remap ⟨11, 0, 65535, 32768, 32768, 512, 1023, 0, 0, 2⟩
    (by decide) (by decide) (by decide) (by decide) (by decide) (by decide)
  exact ⟨⟨by decide, by decide, by decide, by decide, by decide, by decide⟩,
    by simpa using h.1, h.2.2.2.1⟩

lemma TriggerStep_fst {N : Nat} (threshold t : Nat) (oldActive : Bool) (mapping : Nat)
    (dev : USB_KB_DEV N) :
    (TriggerStep threshold t oldActive mapping dev).1 = decide (t > threshold) := by
  by_cases h : (decide (t > threshold) : Bool) = oldActive
  · simp [TriggerStep, h]
  · simp [TriggerStep, h]

lemma TriggerStep_frame {N : Nat} (threshold t : Nat) (oldActive : Bool) (mapping : Nat)
    (dev : USB_KB_DEV N) :
    (TriggerStep threshold t oldActive mapping dev).2.xboxState = dev.xboxState ∧
    (TriggerStep threshold t oldActive mapping dev).2.simplePointerInstalled
      = dev.simplePointerInstalled ∧
    (TriggerStep threshold t oldActive mapping dev).2.deviceType = dev.deviceType ∧
    (TriggerStep threshold t oldActive mapping dev).2.simplePointerState.relativeMovementX
      = dev.simplePointerState.relativeMovementX ∧
    (TriggerStep threshold t oldActive mapping dev).2.simplePointerState.relativeMovementY
      = dev.simplePointerState.relativeMovementY ∧
    (TriggerStep threshold t oldActive mapping dev).2.simplePointerState.relativeMovementZ
      = dev.simplePointerState.relativeMovementZ := by
  simp only [TriggerStep]
  split_ifs with h1 h2 h3 h4 h5 h6
  all_goals
    first
      | exact ⟨rfl, rfl, rfl, rfl, rfl, rfl⟩
      | (obtain ⟨hp, hx, hi, hd⟩ := QueueButtonTransition_frame dev mapping
           (decide (t > threshold))
         exact ⟨hx, hi, hd, by rw [hp], by rw [hp], by rw [hp]⟩)

lemma buttonStep_frame {N : Nat} (cfg : XBOX360_CONFIG) (B1 B2 : Nat)
    (dev : USB_KB_DEV N) (i : Nat) :
    (buttonStep cfg B1 B2 dev i).xboxState = dev.xboxState ∧
    (buttonStep cfg B1 B2 dev i).simplePointerInstalled = dev.simplePointerInstalled ∧
    (buttonStep cfg B1 B2 dev i).deviceType = dev.deviceType ∧
    (buttonStep cfg B1 B2 dev i).simplePointerState.relativeMovementX
      = dev.simplePointerState.relativeMovementX ∧
    (buttonStep cfg B1 B2 dev i).simplePointerState.relativeMovementY
      = dev.simplePointerState.relativeMovementY ∧
    (buttonStep cfg B1 B2 dev i).simplePointerState.relativeMovementZ
      = dev.simplePointerState.relativeMovementZ := by
  simp only [buttonStep]
  split_ifs with h1 h2 h3 h4 h5
  all_goals
    first
      | exact ⟨rfl, rfl, rfl, rfl, rfl, rfl⟩
      | (obtain ⟨hp, hx, hi, hd⟩ := QueueButtonTransition_frame dev (cfg.buttonMap i)
           (decide ((B2 &&& (1 <<< i)) ≠ 0))
         exact ⟨hx, hi, hd, by rw [hp], by rw [hp], by rw [hp]⟩)

lemma buttonFold_frame {N : Nat} (cfg : XBOX360_CONFIG) (B1 B2 : Nat) :
    ∀ (L : List Nat) (dev : USB_KB_DEV N),
    (L.foldl (buttonStep cfg B1 B2) dev).xboxState = dev.xboxState ∧
    (L.foldl (buttonStep cfg B1 B2) dev).simplePointerInstalled
      = dev.simplePointerInstalled ∧
    (L.foldl (buttonStep cfg B1 B2) dev).deviceType = dev.deviceType ∧
    (L.foldl (buttonStep cfg B1 B2) dev).simplePointerState.relativeMovementX
      = dev.simplePointerState.relativeMovementX ∧
    (L.foldl (buttonStep cfg B1 B2) dev).simplePointerState.relativeMovementY
      = dev.simplePointerState.relativeMovementY ∧
    (L.foldl (buttonStep cfg B1 B2) dev).simplePointerState.relativeMovementZ
      = dev.simplePointerState.relativeMovementZ := by
  intro L
  induction L with
  | nil => intro dev; exact ⟨rfl, rfl, rfl, rfl, rfl, rfl⟩
  | cons i L ih =>
    intro dev
    obtain ⟨s1, s2, s3, s4, s5, s6⟩ := buttonStep_frame cfg B1 B2 dev i
    obtain ⟨f1, f2, f3, f4, f5, f6⟩ := ih (buttonStep cfg B1 B2 dev i)
    exact ⟨f1.trans s1, f2.trans s2, f3.trans s3, f4.trans s4, f5.trans s5, f6.trans s6⟩

/-- The net effect of the button phase of KeyboardHandler on everything
except the button mask and the queue: nothing else changes, and the stored
mask ends up equal to the new mask. -/
lemma buttonPhase_frame {N : Nat} (cfg : XBOX360_CONFIG) (dev : USB_KB_DEV N) (nb : Nat) :
    (let devB :=
      if dev.xboxState.buttons ≠ nb then
        { ProcessButtonChanges cfg dev dev.xboxState.buttons nb with
          xboxState := { (ProcessButtonChanges cfg dev dev.xboxState.buttons nb).xboxState with
            buttons := nb } }
      else dev
     devB.xboxState.leftTriggerActive = dev.xboxState.leftTriggerActive ∧
     devB.xboxState.rightTriggerActive = dev.xboxState.rightTriggerActive ∧
     devB.xboxState.leftStickX = dev.xboxState.leftStickX ∧
     devB.xboxState.leftStickY = dev.xboxState.leftStickY ∧
     devB.xboxState.rightStickX = dev.xboxState.rightStickX ∧
     devB.xboxState.rightStickY = dev.xboxState.rightStickY ∧
     devB.xboxState.leftStickDir = dev.xboxState.leftStickDir ∧
     devB.xboxState.rightStickDir = dev.xboxState.rightStickDir ∧
     devB.simplePointerState.relativeMovementX = dev.simplePointerState.relativeMovementX ∧
     devB.simplePointerState.relativeMovementY = dev.simplePointerState.relativeMovementY ∧
     devB.simplePointerState.relativeMovementZ = dev.simplePointerState.relativeMovementZ ∧
     devB.xboxState.buttons = nb) := by
  by_cases hbtn : dev.xboxState.buttons ≠ nb
  · obtain ⟨f1, f2, f3, f4, f5, f6⟩ :=
      buttonFold_frame cfg dev.xboxState.buttons nb (List.range 16) dev
    simp only [if_pos hbtn, ProcessButtonChanges]
    simp [f1, f4, f5, f6]
  · simp only [if_neg hbtn]
    push_neg at hbtn
    simp [hbtn]

/-- The net effect of the trigger phase of KeyboardHandler: both active
flags become (trigger byte > threshold) and nothing else of the controller
state or the pointer deltas changes. -/
lemma triggerPhase_spec {N : Nat} (cfg : XBOX360_CONFIG) (devB : USB_KB_DEV N)
    (t4 t5 : Nat) :
    (triggerPhase cfg devB t4 t5).xboxState.leftTriggerActive
      = decide (t4 > cfg.triggerThreshold) ∧
    (triggerPhase cfg devB t4 t5).xboxState.rightTriggerActive
      = decide (t5 > cfg.triggerThreshold) ∧
    (triggerPhase cfg devB t4 t5).xboxState.leftStickX = devB.xboxState.leftStickX ∧
    (triggerPhase cfg devB t4 t5).xboxState.leftStickY = devB.xboxState.leftStickY ∧
    (triggerPhase cfg devB t4 t5).xboxState.rightStickX = devB.xboxState.rightStickX ∧
    (triggerPhase cfg devB t4 t5).xboxState.rightStickY = devB.xboxState.rightStickY ∧
    (triggerPhase cfg devB t4 t5).xboxState.leftStickDir = devB.xboxState.leftStickDir ∧
    (triggerPhase cfg devB t4 t5).xboxState.rightStickDir = devB.xboxState.rightStickDir ∧
    (triggerPhase cfg devB t4 t5).simplePointerState.relativeMovementX
      = devB.simplePointerState.relativeMovementX ∧
    (triggerPhase cfg devB t4 t5).simplePointerState.relativeMovementY
      = devB.simplePointerState.relativeMovementY ∧
    (triggerPhase cfg devB t4 t5).simplePointerState.relativeMovementZ
      = devB.simplePointerState.relativeMovementZ := by
  obtain ⟨g1, g2, g3, g4, g5, g6⟩ := TriggerStep_frame cfg.triggerThreshold t4
    devB.xboxState.leftTriggerActive cfg.leftTriggerKey devB
  obtain ⟨h1, h2, h3, h4, h5, h6⟩ := TriggerStep_frame cfg.triggerThreshold t5
    (setLeftTriggerActive
      (TriggerStep cfg.triggerThreshold t4 devB.xboxState.leftTriggerActive
        cfg.leftTriggerKey devB).2
      (TriggerStep cfg.triggerThreshold t4 devB.xboxState.leftTriggerActive
        cfg.leftTriggerKey devB).1).xboxState.rightTriggerActive
    cfg.rightTriggerKey
    (setLeftTriggerActive
      (TriggerStep cfg.triggerThreshold t4 devB.xboxState.leftTriggerActive
        cfg.leftTriggerKey devB).2
      (TriggerStep cfg.triggerThreshold t4 devB.xboxState.leftTriggerActive
        cfg.leftTriggerKey devB).1)
  refine ⟨?_, ?_, ?_, ?_, ?_, ?_, ?_, ?_, ?_, ?_, ?_⟩
  all_goals simp only [triggerPhase]
  all_goals simp only [setRightTriggerActive]
  all_goals try simp only [h1, h4, h5, h6]
  all_goals try simp only [setLeftTriggerActive]
  all_goals try simp only [g1, g4, g5, g6]
  all_goals try simp only [TriggerStep_fst]

/-- Claim C9: for a native (canonical-shaped) device the report handler
accepts short reports piecewise.  Null data or fewer than 4 bytes: success,
nothing at all changes.  4..5 bytes: only the button state updates; trigger
flags, stick axes, direction masks and pointer deltas are untouched.
6..13 bytes: triggers additionally update (to trigger byte > threshold),
while all four stick axes, both direction masks and the pointer deltas
remain untouched. -/
theorem handler_accepts_short_reports_piecewise {N : Nat} (cfg : XBOX360_CONFIG)
    (dev : USB_KB_DEV N) (raw : List Nat) (hnative : dev.deviceType = .xbox360) :
    KeyboardHandler cfg dev none true = (dev, .success) ∧
    (raw.length < 4 → KeyboardHandler cfg dev (some raw) true = (dev, .success)) ∧
    (4 ≤ raw.length → raw.length < 6 →
      ((KeyboardHandler cfg dev (some raw) true).1.xboxState.buttons = readU16 raw 2 ∧
       (KeyboardHandler cfg dev (some raw) true).1.xboxState.leftTriggerActive
         = dev.xboxState.leftTriggerActive ∧
       (KeyboardHandler cfg dev (some raw) true).1.xboxState.rightTriggerActive
         = dev.xboxState.rightTriggerActive ∧
       (KeyboardHandler cfg dev (some raw) true).1.xboxState.leftStickX
         = dev.xboxState.leftStickX ∧
       (KeyboardHandler cfg dev (some raw) true).1.xboxState.leftStickY
         = dev.xboxState.leftStickY ∧
       (KeyboardHandler cfg dev (some raw) true).1.xboxState.rightStickX
         = dev.xboxState.rightStickX ∧
       (KeyboardHandler cfg dev (some raw) true).1.xboxState.rightStickY
         = dev.xboxState.rightStickY ∧
       (KeyboardHandler cfg dev (some raw) true).1.xboxState.leftStickDir
         = dev.xboxState.leftStickDir ∧
       (KeyboardHandler cfg dev (some raw) true).1.xboxState.rightStickDir
         = dev.xboxState.rightStickDir ∧
       (KeyboardHandler cfg dev (some raw) true).1.simplePointerState.relativeMovementX
         = dev.simplePointerState.relativeMovementX ∧
       (KeyboardHandler cfg dev (some raw) true).1.simplePointerState.relativeMovementY
         = dev.simplePointerState.relativeMovementY ∧
       (KeyboardHandler cfg dev (some raw) true).1.simplePointerState.relativeMovementZ
         = dev.simplePointerState.relativeMovementZ ∧
       (KeyboardHandler cfg dev (some raw) true).2 = .success)) ∧
    (6 ≤ raw.length → raw.length < 14 →
      ((KeyboardHandler cfg dev (some raw) true).1.xboxState.leftTriggerActive
         = decide (raw.getD 4 0 > cfg.triggerThreshold) ∧
       (KeyboardHandler cfg dev (some raw) true).1.xboxState.rightTriggerActive
         = decide (raw.getD 5 0 > cfg.triggerThreshold) ∧
       (KeyboardHandler cfg dev (some raw) true).1.xboxState.leftStickX
         = dev.xboxState.leftStickX ∧
       (KeyboardHandler cfg dev (some raw) true).1.xboxState.leftStickY
         = dev.xboxState.leftStickY ∧
       (KeyboardHandler cfg dev (some raw) true).1.xboxState.rightStickX
         = dev.xboxState.rightStickX ∧
       (KeyboardHandler cfg dev (some raw) true).1.xboxState.rightStickY
         = dev.xboxState.rightStickY ∧
       (KeyboardHandler cfg dev (some raw) true).1.xboxState.leftStickDir
         = dev.xboxState.leftStickDir ∧
       (KeyboardHandler cfg dev (some raw) true).1.xboxState.rightStickDir
         = dev.xboxState.rightStickDir ∧
       (KeyboardHandler cfg dev (some raw) true).1.simplePointerState.relativeMovementX
         = dev.simplePointerState.relativeMovementX ∧
       (KeyboardHandler cfg dev (some raw) true).1.simplePointerState.relativeMovementY
         = dev.simplePointerState.relativeMovementY ∧
       (KeyboardHandler cfg dev (some raw) true).1.simplePointerState.relativeMovementZ
         = dev.simplePointerState.relativeMovementZ)) := by
  have htf : ¬ ((true : Bool) = false) := by simp
  have hna : ¬ (dev.deviceType = DeviceType.asusAlly) := by simp [hnative]
  refine ⟨rfl, ?_, ?_, ?_⟩
  · intro hlt
    simp [KeyboardHandler, hlt]
  · intro h4 h6
    have hn4 : ¬ (raw.length < 4) := by omega
    have hn6 : ¬ (6 ≤ raw.length) := by omega
    have hn14 : ¬ (14 ≤ raw.length) := by omega
    simp only [KeyboardHandler, if_neg htf, if_neg hn4, if_neg hna, if_neg hn6, if_neg hn14]
    obtain ⟨b1, b2, b3, b4, b5, b6, b7, b8, b9, b10, b11, b12⟩ :=
      buttonPhase_frame cfg dev (readU16 raw 2)
    exact ⟨b12, b1, b2, b3, b4, b5, b6, b7, b8, b9, b10, b11, trivial⟩
  · intro h6 h14
    have hn4 : ¬ (raw.length < 4) := by omega
    have hn14 : ¬ (14 ≤ raw.length) := by omega
    simp only [KeyboardHandler, if_neg htf, if_neg hn4, if_neg hna, if_pos h6, if_neg hn14]
    obtain ⟨b1, b2, b3, b4, b5, b6, b7, b8, b9, b10, b11, b12⟩ :=
      buttonPhase_frame cfg dev (readU16 raw 2)
    obtain ⟨t1, t2, t3, t4, t5, t6, t7, t8, t9, t10, t11⟩ :=
      triggerPhase_spec cfg
        (if dev.xboxState.buttons ≠ readU16 raw 2 then
          { ProcessButtonChanges cfg dev dev.xboxState.buttons (readU16 raw 2) with
            xboxState := { (ProcessButtonChanges cfg dev dev.xboxState.buttons
              (readU16 raw 2)).xboxState with buttons := readU16 raw 2 } }
         else dev)
        (raw.getD 4 0) (raw.getD 5 0)
    exact ⟨t1, t2, t3.trans b3, t4.trans b4, t5.trans b5, t6.trans b6,
      t7.trans b7, t8.trans b8, t9.trans b9, t10.trans b10, t11.trans b11⟩

/-- Witness for C9: the sample native device with no data, and with the
4-byte report [0, 0, 5, 0] whose button word is 5. -/
theorem handler_accepts_short_reports_piecewise_witness :
    sampleDev.deviceType = DeviceType.xbox360 ∧
    KeyboardHandler sampleCfg sampleDev none true = (sampleDev, .success) ∧
    (KeyboardHandler sampleCfg sampleDev (some [0, 0, 5, 0]) true).1.xboxState.buttons
      = readU16 [0, 0, 5, 0] 2 :=
  ⟨rfl,
   (handler_accepts_short_reports_piecewise sampleCfg sampleDev [0, 0, 5, 0] rfl).1,
   ((handler_accepts_short_reports_piecewise sampleCfg sampleDev [0, 0, 5, 0] rfl).2.2.1
     (by decide) (by decide)).1⟩

/-- DrainResets is indeed the iteration of single USBParseKey calls. -/
lemma DrainResets_eq_parse (layout : Nat → Option KeyModifier)
    (q : List USB_KEY) : ∀ (s : MODIFIER_STATE),
    DrainResets layout s q =
      match USBParseKey layout s q with
      | .notReady _ => 0
      | .resetCalled _ => 1
      | .keyOut s2 rest _ => DrainResets layout s2 rest := by
  induction q with
  | nil => intro s; rfl
  | cons k rest ih =>
    intro s
    simp only [DrainResets, USBParseKey]
    cases hl : layout k.keyCode with
    | none => exact ih s
    | some m =>
      cases hdn : k.down with
      | false =>
        simp only [if_pos rfl]
        exact ih (releaseUpdate s m)
      | true =>
        have hne : ¬ ((true : Bool) = false) := by simp
        simp only [if_neg hne]
        split_ifs with hres
        · rfl
        · rfl

/-- Splitting a drain at a list boundary: if a reset fires in the prefix the
total is that one reset; otherwise the suffix is drained from the state the
prefix leaves behind. -/
lemma DrainResets_append (layout : Nat → Option KeyModifier) :
    ∀ (L R : List USB_KEY) (s : MODIFIER_STATE),
    DrainResets layout s (L ++ R) =
      if DrainResets layout s L = 1 then 1
      else DrainResets layout (L.foldl (stepState layout) s) R := by
  intro L
  induction L with
  | nil => intro R s; simp [DrainResets]
  | cons k L ih =>
    intro R s
    simp only [List.cons_append, DrainResets, List.foldl_cons, stepState]
    cases hl : layout k.keyCode with
    | none => exact ih R s
    | some m =>
      cases hdn : k.down with
      | false =>
        simp only [if_pos rfl]
        exact ih R (releaseUpdate s m)
      | true =>
        have hne : ¬ ((true : Bool) = false) := by simp
        simp only [if_neg hne]
        by_cases hres : (m = KeyModifier.deleteKey ∧ (pressUpdate s m).ctrlOn = true ∧
            (pressUpdate s m).altOn = true)
        · obtain ⟨hm, hcO, haO⟩ := hres
          subst hm
          split_ifs with h2 h3
          · rfl
          · exact absurd rfl h3
          all_goals exact absurd ⟨rfl, hcO, haO⟩ h2
        · simp only [if_neg hres]
          exact ih R (pressUpdate s m)

/-- CtrlOn, once set, survives any sequence of events that contains no
control-class release. -/
lemma ctrlOn_persist (layout : Nat → Option KeyModifier) :
    ∀ (L : List USB_KEY) (s : MODIFIER_STATE),
    s.ctrlOn = true → (∀ k ∈ L, ¬ isCtrlRelease layout k) →
    (L.foldl (stepState layout) s).ctrlOn = true := by
  intro L
  induction L with
  | nil => intro s hs _; exact hs
  | cons k L ih =>
    intro s hs hno
    simp only [List.foldl_cons]
    apply ih
    · have hk := hno k (by simp)
      unfold stepState
      cases hl : layout k.keyCode with
      | none => exact hs
      | some m =>
        cases hdn : k.down with
        | false =>
          simp only [if_pos rfl]
          cases m
          case leftControl => exact absurd ⟨hdn, Or.inl hl⟩ hk
          case rightControl => exact absurd ⟨hdn, Or.inr hl⟩ hk
          all_goals simp [releaseUpdate, hs]
        | true =>
          have hne : ¬ ((true : Bool) = false) := by simp
          simp only [if_neg hne]
          cases m <;> simp [pressUpdate, hs]
    · intro k2 hk2
      exact hno k2 (by simp [hk2])

/-- AltOn, once set, survives any sequence of events that contains no
alt-class release. -/
lemma altOn_persist (layout : Nat → Option KeyModifier) :
    ∀ (L : List USB_KEY) (s : MODIFIER_STATE),
    s.altOn = true → (∀ k ∈ L, ¬ isAltRelease layout k) →
    (L.foldl (stepState layout) s).altOn = true := by
  intro L
  induction L with
  | nil => intro s hs _; exact hs
  | cons k L ih =>
    intro s hs hno
    simp only [List.foldl_cons]
    apply ih
    · have hk := hno k (by simp)
      unfold stepState
      cases hl : layout k.keyCode with
      | none => exact hs
      | some m =>
        cases hdn : k.down with
        | false =>
          simp only [if_pos rfl]
          cases m
          case leftAlt => exact absurd ⟨hdn, Or.inl hl⟩ hk
          case rightAlt => exact absurd ⟨hdn, Or.inr hl⟩ hk
          all_goals simp [releaseUpdate, hs]
        | true =>
          have hne : ¬ ((true : Bool) = false) := by simp
          simp only [if_neg hne]
          cases m <;> simp [pressUpdate, hs]
    · intro k2 hk2
      exact hno k2 (by simp [hk2])

/-- Claim C8: a batch that contains a press of a ctrl-class key and a press
of an alt-class key before a press of a Delete-class key, with neither
ctrl nor alt released between its press and the Delete press, causes
exactly one warm reset when the queue is drained, regardless of any other
events in the batch (including additional presses of the same keys: once
ResetSystem fires, processing stops). -/
theorem ctrl_alt_delete_resets_once (layout : Nat → Option KeyModifier)
    (s0 : MODIFIER_STATE) (kc ka kd : Nat) (P1 P2 Q1 Q2 R : List USB_KEY)
    (hc : layout kc = some .leftControl ∨ layout kc = some .rightControl)
    (ha : layout ka = some .leftAlt ∨ layout ka = some .rightAlt)
    (hdel : layout kd = some .deleteKey)
    (hP : P1 ++ (⟨kc, true⟩ : USB_KEY) :: P2 = Q1 ++ (⟨ka, true⟩ : USB_KEY) :: Q2)
    (hnoC : ∀ k ∈ P2, ¬ isCtrlRelease layout k)
    (hnoA : ∀ k ∈ Q2, ¬ isAltRelease layout k) :
    DrainResets layout s0 ((P1 ++ (⟨kc, true⟩ : USB_KEY) :: P2)
      ++ (⟨kd, true⟩ : USB_KEY) :: R) = 1 := by
  rw [DrainResets_append]
  split_ifs with h1
  · rfl
  · have hctrl : ((P1 ++ (⟨kc, true⟩ : USB_KEY) :: P2).foldl
        (stepState layout) s0).ctrlOn = true := by
      rw [List.foldl_append, List.foldl_cons]
      apply ctrlOn_persist layout P2
      · unfold stepState
        rcases hc with h | h <;> simp [h, pressUpdate]
      · exact hnoC
    have halt : ((P1 ++ (⟨kc, true⟩ : USB_KEY) :: P2).foldl
        (stepState layout) s0).altOn = true := by
      rw [hP, List.foldl_append, List.foldl_cons]
      apply altOn_persist layout Q2
      · unfold stepState
        rcases ha with h | h <;> simp [h, pressUpdate]
      · exact hnoA
    have hne2 : ¬ ((true : Bool) = false) := by simp
    simp only [DrainResets, hdel, if_neg hne2]
    split_ifs with h2
    · rfl
    · exact absurd ⟨trivial, hctrl, halt⟩ h2

/-- Witness for C8: queue = ctrl press, alt press, delete press. -/
theorem ctrl_alt_delete_resets_once_witness :
    (sampleLayout 1 = some .leftControl ∨ sampleLayout 1 = some .rightControl) ∧
    (sampleLayout 2 = some .leftAlt ∨ sampleLayout 2 = some .rightAlt) ∧
    sampleLayout 3 = some .deleteKey ∧
    ([] ++ (⟨1, true⟩ : USB_KEY) :: [⟨2, true⟩]
      = [⟨1, true⟩] ++ (⟨2, true⟩ : USB_KEY) :: []) ∧
    (∀ k ∈ [(⟨2, true⟩ : USB_KEY)], ¬ isCtrlRelease sampleLayout k) ∧
    (∀ k ∈ ([] : List USB_KEY), ¬ isAltRelease sampleLayout k) ∧
    DrainResets sampleLayout sampleMods
      (([] ++ (⟨1, true⟩ : USB_KEY) :: [⟨2, true⟩])
        ++ (⟨3, true⟩ : USB_KEY) :: []) = 1 :=
  ⟨Or.inl (by decide), Or.inl (by decide), by decide, by decide, by decide, by decide,
    ctrl_alt_delete_resets_once sampleLayout sampleMods 1 2 3 [] [⟨2, true⟩]
      [⟨1, true⟩] [] [] (Or.inl (by decide)) (Or.inl (by decide)) (by decide)
      (by decide) (by decide) (by decide)⟩

end Xbox360
